import Mathlib

/-
Verification development for the Agentic-Ads web client.

The repository is a browser-hosted React client; its orchestration core is a
set of hooks (useAdGeneration, useApiData, useFeedbackHandler, useAdminAuth,
useAppState).  Effectful TypeScript handlers are embedded shallowly: each
handler is a pure Lean function from its inputs (current state, the
environment clock, and an oracle describing the outcomes of the external HTTP
calls) to a trace of primitive UI/state events, together with a state-apply
semantics folding the trace over the state.  JavaScript strings are modelled
as lists of characters; JS string falsiness is the empty string, and values
that may be null/undefined are wrapped in Option.
-/

/-- JS strings, modelled as lists of characters. -/
abbrev Str := List Char

/-- Coerce a Lean string literal into the Str model. -/
def str (s : String) : Str := s.data

/-- The replace of the regex matching one or more trailing slashes with the
empty string, as in (API_BASE_URL or empty).replace in both hooks. -/
def stripTrailingSlashes (s : Str) : Str :=
  (s.reverse.dropWhile (fun c => c = '/')).reverse

/-- Whether the regex piece matching the literal slash-api (case-insensitive)
followed by either the end of the string or a further slash matches at the
head of the given suffix.  This is the per-position test of the anchored
pattern used to derive the backend origin from the API base. -/
def isApiCut (s : Str) : Bool :=
  s.head? = some '/' &&
  ((s.drop 1).head?.map Char.toLower = some 'a') &&
  ((s.drop 2).head?.map Char.toLower = some 'p') &&
  ((s.drop 3).head?.map Char.toLower = some 'i') &&
  ((s.drop 4).isEmpty || (s.drop 4).head? = some '/')

/-- JS String.replace with a non-global end-anchored regex removes the
leftmost match; scanning left to right, the first position at which the
slash-api suffix pattern matches is cut off. -/
def stripApiSuffix : Str → Str
  | [] => []
  | c :: rest => if isApiCut (c :: rest) then [] else c :: stripApiSuffix rest

/-- Case-insensitive prefix test (first argument is the pattern). -/
def startsWithCI : Str → Str → Bool
  | [], _ => true
  | _ :: _, [] => false
  | a :: as, b :: bs => (a.toLower = b.toLower) && startsWithCI as bs

/-- The test of the anchored regex accepting an optional http or https scheme
followed by two slashes, case-insensitively, at the start of the path. -/
def isAbsoluteUrl (p : Str) : Bool :=
  startsWithCI (str "http://") p || startsWithCI (str "https://") p ||
  (str "//").isPrefixOf p

/-- normalizedApiBase from both hooks: trailing slashes stripped from the
configured base (empty when unset), with the localhost default when the
stripped value is falsy. -/
def normalizedApiBase (apiBase : Str) : Str :=
  let t := stripTrailingSlashes apiBase
  if t = [] then str "http://localhost:8000/api" else t

/-- backendBaseUrl from both hooks: the api suffix stripped from the
normalized base, with the localhost default when the result is falsy. -/
def backendBaseUrl (apiBase : Str) : Str :=
  let b := stripApiSuffix (normalizedApiBase apiBase)
  if b = [] then str "http://localhost:8000" else b

/-- buildApiUrl from useAdGeneration. -/
def buildApiUrl (apiBase : Str) (endpoint : Str) : Str :=
  normalizedApiBase apiBase ++ str "/rag/" ++ endpoint

/-- Leading-slash normalization applied to relative paths before they are
appended to the backend base. -/
def normalizeLeadingSlash (p : Str) : Str :=
  if p.head? = some '/' then p else '/' :: p

/-- resolveBackendUrl as defined identically in useAdGeneration and
useFeedbackHandler: undefined on a falsy path, absolute and data URLs
returned unchanged, relative paths resolved against the backend base. -/
def resolveBackendUrl (apiBase : Str) (path : Option Str) : Option Str :=
  match path with
  | none => none
  | some p =>
    if p = [] then none
    else if isAbsoluteUrl p || (str "data:").isPrefixOf p then some p
    else some (backendBaseUrl apiBase ++ normalizeLeadingSlash p)

/-- JS string disjunction: the first operand unless it is falsy (empty). -/
def jsOrStr (a b : Str) : Str := if a = [] then b else a

/-- JS disjunction on a possibly undefined string. -/
def jsOrOpt (a : Option Str) (b : Str) : Str :=
  match a with
  | none => b
  | some s => if s = [] then b else s

/-- charAt(0).toUpperCase() + slice(1); the empty string maps to itself. -/
def capitalize : Str → Str
  | [] => []
  | c :: rest => c.toUpper :: rest

/-- Array.prototype.join with a comma-space separator. -/
def joinCommaSpace : List Str → Str
  | [] => []
  | [x] => x
  | x :: y :: rest => x ++ str ", " ++ joinCommaSpace (y :: rest)

/-- String.prototype.split on the slash character. -/
def splitSlash : Str → List Str
  | [] => [[]]
  | c :: rest =>
    match splitSlash rest with
    | [] => if c = '/' then [[], []] else [[c]]
    | x :: xs => if c = '/' then [] :: x :: xs else (c :: x) :: xs

/-- split on slash, then filter(Boolean): the non-empty segments. -/
def nonEmptySegs (s : Str) : List Str :=
  (splitSlash s).filter (fun seg => seg ≠ [])

/-- deriveFilename from useFeedbackHandler.  The browser URL constructor is
external to the repository, so its outcome is an input: some pathname when
parsing succeeds, none when the constructor throws.  On a parsed pathname the
last non-empty segment wins; otherwise the last non-empty slash-separated
piece of the raw url, with the fixed fallback when none exists. -/
def deriveFilename (url : Str) (parsedPathname : Option Str) (fallback : Str) : Str :=
  let sanitized := (nonEmptySegs url).getLast?
  match parsedPathname with
  | some pathname =>
    match (nonEmptySegs pathname).getLast? with
    | some seg => seg
    | none => sanitized.getD fallback
  | none => sanitized.getD fallback

/-- Truthiness of a possibly undefined JS string. -/
def optStrTruthy : Option Str → Bool
  | none => false
  | some s => !s.isEmpty

/- ===================== Data model ===================== -/

/-- Form input state from useAppState (fields consumed by the handlers). -/
structure FormData where
  adText : Str
  tone : Str
  platform : Str
  outputs : List Str
  brandGuidelines : Str
  logoPresent : Bool
  logoPosition : Str
  deriving DecidableEq, Repr

/-- Browser clock values read during one handler run (Date.now and the two
formatted renderings). -/
structure TimeInfo where
  nowMs : Nat
  dateStr : Str
  timeStr : Str
  deriving DecidableEq, Repr

/-- Parsed JSON body of a 2xx response from the rag generation endpoint.
Absent fields are modelled by the empty string, which is JS-falsy exactly
like undefined under every use in the hook. -/
structure RagResponse where
  text : Str
  poster_prompt : Str
  poster_url : Str
  video_script : Str
  video_gif_url : Str
  video_gif_filename : Str
  quality_scores : Option (List (Str × Str))
  validation_feedback : Option (List (Str × Str))
  errors : List Str
  deriving DecidableEq, Repr

/-- A generation-history record (types.GenerationHistory). -/
structure GenerationHistory where
  id : Nat
  date : Str
  time : Str
  platform : Str
  tone : Str
  adText : Str
  outputs : Str
  status : Str
  deriving DecidableEq, Repr

/-- A feedback record (types.FeedbackItem). -/
structure FeedbackItem where
  id : Nat
  email : Str
  message : Str
  rating : Nat
  action : Str
  date : Str
  platform : Str
  deriving DecidableEq, Repr

/-- The generation result payload stored by setResult. -/
structure GenerationResult where
  rewrittenText : Str
  posterUrl : Str
  poster_url : Option Str
  videoUrl : Option Str
  videoScript : Str
  videoFilename : Option Str
  qualityScores : Option (List (Str × Str))
  validationFeedback : Option (List (Str × Str))
  deriving DecidableEq, Repr

/-- The feedback draft {email, message, rating} from useAppState. -/
structure FeedbackDraft where
  email : Str
  message : Str
  rating : Nat
  deriving DecidableEq, Repr

/- ===================== Remote data cache (useApiData) ===================== -/

/-- Math.max over the ids with the extra 0 argument, as written in
addGenerationHistory and addFeedback. -/
def jsMaxId (ids : List Nat) : Nat := ids.foldl max 0

/-- addGenerationHistory from useApiData, run against an in-memory list and
the outcome of the POST: compute the local id, POST the record with that id,
append on success; a failed POST leaves the list untouched and rethrows. -/
def addGenerationHistoryRun (hist : List GenerationHistory)
    (g : GenerationHistory) (postOk : Bool) :
    List GenerationHistory × Except Unit GenerationHistory :=
  let newId := jsMaxId (hist.map (fun h => h.id)) + 1
  let withId := { g with id := newId }
  if postOk then (hist ++ [withId], Except.ok withId)
  else (hist, Except.error ())

/-- addFeedback from useApiData, same shape as addGenerationHistoryRun. -/
def addFeedbackRun (l : List FeedbackItem) (f : FeedbackItem) (postOk : Bool) :
    List FeedbackItem × Except Unit FeedbackItem :=
  let newId := jsMaxId (l.map (fun x => x.id)) + 1
  let withId := { f with id := newId }
  if postOk then (l ++ [withId], Except.ok withId)
  else (l, Except.error ())

/-- The identifier the specification describes: the maximum id in the current
list plus one, or 1 for an empty list. -/
def specNextId (ids : List Nat) : Nat :=
  match ids with
  | [] => 1
  | x :: xs => xs.foldl max x + 1

/- ===================== Generation orchestrator ===================== -/

/-- Outcome of the backend generation call: the fetch (or body read) throws,
the response is non-2xx, or a 2xx response with a parsed JSON body. -/
inductive FetchOutcome where
  | networkError
  | httpError
  | success (body : RagResponse)
  deriving DecidableEq, Repr

/-- Oracle for one handleGenerate run: the generation call outcome and
whether the history POST issued by useApiData succeeds. -/
structure GenOracle where
  fetch : FetchOutcome
  historyPostOk : Bool
  deriving DecidableEq, Repr

/-- Primitive effects performed by handleGenerate, in order. -/
inductive GenEvent where
  | setGenerating (b : Bool)
  | fetchRequest (url : Str) (multipart : Bool)
  | postHistory (entry : GenerationHistory) (postOk : Bool)
  | setResult (r : GenerationResult)
  deriving DecidableEq, Repr

/-- fallbackText constant from useAdGeneration. -/
def fallbackText : Str :=
  str "🤖 AI generation temporarily unavailable. Using smart templates instead.\n\n🚀 Ready to level up your business? Our premium solutions deliver exceptional results!"

/-- fallbackPosterPrompt constant from useAdGeneration. -/
def fallbackPosterPrompt : Str :=
  str "Create a stunning visual advertisement featuring premium quality and professional design elements for maximum engagement."

/-- fallbackPosterPreview constant from useAdGeneration. -/
def fallbackPosterPreview : Str :=
  str "https://via.placeholder.com/1080x1080/FF6B6B/ffffff?text=Generated+Poster"

/-- fallbackVideoScript constant from useAdGeneration. -/
def fallbackVideoScript : Str :=
  str "SCENE 1: Dynamic opening with energetic music\nNARRATION: Transform your business today!\n\nSCENE 2: Show product benefits\nNARRATION: See the difference quality makes\n\nSCENE 3: Strong call-to-action\nNARRATION: Contact us now for premium solutions!"

/-- The history entry literal built inside handleGenerate (identical on the
success and catch paths except for the status string). -/
def mkHistoryEntry (t : TimeInfo) (form : FormData) (status : Str) : GenerationHistory :=
  { id := t.nowMs
    date := t.dateStr
    time := t.timeStr
    platform := form.platform
    tone := capitalize form.tone
    adText := form.adText
    outputs := joinCommaSpace (form.outputs.map capitalize)
    status := status }

/-- The hasEmptyResults test from handleGenerate. -/
def hasEmptyResults (body : RagResponse) : Bool :=
  body.text.isEmpty && body.poster_prompt.isEmpty && body.poster_url.isEmpty &&
  body.video_script.isEmpty && body.video_gif_url.isEmpty

/-- The result payload assigned by setResult on the 2xx path. -/
def successResult (apiBase : Str) (body : RagResponse) : GenerationResult :=
  { rewrittenText := jsOrStr body.text
      (if hasEmptyResults body then fallbackText else str "Generated content not available")
    posterUrl := jsOrStr body.poster_prompt
      (if hasEmptyResults body then fallbackPosterPrompt else str "Poster prompt not generated")
    poster_url := resolveBackendUrl apiBase (some body.poster_url)
    videoUrl := resolveBackendUrl apiBase (some body.video_gif_url)
    videoScript := jsOrStr body.video_script
      (if hasEmptyResults body then fallbackVideoScript else str "Video script not generated")
    videoFilename := if body.video_gif_filename = [] then none else some body.video_gif_filename
    qualityScores := some (body.quality_scores.getD [])
    validationFeedback := some (body.validation_feedback.getD []) }

/-- The canned result payload assigned by setResult on the catch path. -/
def fallbackResult : GenerationResult :=
  { rewrittenText := fallbackText
    posterUrl := fallbackPosterPrompt
    poster_url := some fallbackPosterPreview
    videoUrl := none
    videoScript := fallbackVideoScript
    videoFilename := none
    qualityScores := none
    validationFeedback := none }

/-- handleGenerate from useAdGeneration as the ordered trace of its effects:
mark generating, issue the generation POST (multipart when a logo file is
attached), then either the 2xx path (history entry with status Completed,
result from the body with placeholder substitution) or the catch path
(history entry with status Fallback, canned result), and finally unmark
generating. -/
def handleGenerate (apiBase : Str) (form : FormData) (t : TimeInfo)
    (o : GenOracle) : List GenEvent :=
  let endpoint := if form.logoPresent then str "generate-with-logo" else str "generate"
  [GenEvent.setGenerating true,
   GenEvent.fetchRequest (buildApiUrl apiBase endpoint) form.logoPresent] ++
  (match o.fetch with
   | FetchOutcome.success body =>
     [GenEvent.postHistory (mkHistoryEntry t form (str "Completed")) o.historyPostOk,
      GenEvent.setResult (successResult apiBase body)]
   | _ =>
     [GenEvent.postHistory (mkHistoryEntry t form (str "Fallback")) o.historyPostOk,
      GenEvent.setResult fallbackResult]) ++
  [GenEvent.setGenerating false]

/-- The slice of React state the generation trace acts on. -/
structure AppReactState where
  generating : Bool
  result : Option GenerationResult
  history : List GenerationHistory
  deriving DecidableEq, Repr

/-- Apply one generation event to the state; a history POST goes through
addGenerationHistoryRun, whose failure handleGenerate catches and logs. -/
def applyGenEvent (s : AppReactState) : GenEvent → AppReactState
  | GenEvent.setGenerating b => { s with generating := b }
  | GenEvent.fetchRequest _ _ => s
  | GenEvent.postHistory e ok =>
    match addGenerationHistoryRun s.history e ok with
    | (h, Except.ok _) => { s with history := h }
    | (_, Except.error _) => s
  | GenEvent.setResult r => { s with result := some r }

/-- Run handleGenerate from an initial state. -/
def runGenerate (apiBase : Str) (form : FormData) (t : TimeInfo) (o : GenOracle)
    (s : AppReactState) : AppReactState :=
  (handleGenerate apiBase form t o).foldl applyGenEvent s

/-- The statuses of the history entries constructed and posted in a trace. -/
def historyStatuses (evts : List GenEvent) : List Str :=
  evts.filterMap (fun e =>
    match e with
    | GenEvent.postHistory g _ => some g.status
    | _ => none)

/-- The result payloads assigned in a trace. -/
def resultsOf (evts : List GenEvent) : List GenerationResult :=
  evts.filterMap (fun e =>
    match e with
    | GenEvent.setResult r => some r
    | _ => none)

/-- Status the specification assigns to each backend outcome: Completed on a
normal return, Fallback when the call throws (network failure or non-2xx). -/
def specStatus : FetchOutcome → Str
  | FetchOutcome.success _ => str "Completed"
  | _ => str "Fallback"

/- ===================== Feedback orchestrator ===================== -/

/-- The slice of state submitFeedback reads and writes. -/
structure FeedbackUiState where
  draft : FeedbackDraft
  feedbackType : Option Str
  showFeedbackModal : Bool
  platform : Str
  feedbackList : List FeedbackItem
  deriving DecidableEq, Repr

/-- Primitive effects performed by submitFeedback, in order. -/
inductive FbEvent where
  | alert (msg : Str)
  | addFeedbackCall (item : FeedbackItem) (postOk : Bool)
  | setShowFeedbackModal (b : Bool)
  | setFeedback (d : FeedbackDraft)
  deriving DecidableEq, Repr

/-- The actionMap record lookup from submitFeedback. -/
def actionMap (k : Str) : Option Str :=
  if k = str "copy" then some (str "Copied Text")
  else if k = str "download-poster" then some (str "Downloaded Poster")
  else if k = str "download-video" then some (str "Downloaded Video")
  else none

/-- The feedback record literal built inside submitFeedback (the id 0 is a
placeholder later overwritten by the locally computed id in addFeedback). -/
def mkFeedbackItem (st : FeedbackUiState) (today : Str) : FeedbackItem :=
  { id := 0
    email := st.draft.email
    message := st.draft.message
    rating := st.draft.rating
    action := (actionMap (st.feedbackType.getD [])).getD (str "Unknown Action")
    date := today
    platform := st.platform }

/-- submitFeedback from useFeedbackHandler as the ordered trace of its
effects: reject with an alert when email or message is empty; otherwise call
addFeedback, and on success thank the user, close the modal and reset the
draft, while on failure alert and return with the modal untouched. -/
def submitFeedback (st : FeedbackUiState) (today : Str) (postOk : Bool) :
    List FbEvent :=
  if st.draft.email = [] ∨ st.draft.message = [] then
    [FbEvent.alert (str "Please fill in all fields")]
  else
    let newFeedback := mkFeedbackItem st today
    if postOk then
      [FbEvent.addFeedbackCall newFeedback true,
       FbEvent.alert (str "Thank you for your feedback!"),
       FbEvent.setShowFeedbackModal false,
       FbEvent.setFeedback { email := [], message := [], rating := 5 }]
    else
      [FbEvent.addFeedbackCall newFeedback false,
       FbEvent.alert (str "Unable to record feedback. Please try again.")]

/-- Apply one feedback event to the state; the persistence call goes through
addFeedbackRun, whose failure submitFeedback surfaces and returns on. -/
def applyFbEvent (st : FeedbackUiState) : FbEvent → FeedbackUiState
  | FbEvent.alert _ => st
  | FbEvent.addFeedbackCall f ok =>
    match addFeedbackRun st.feedbackList f ok with
    | (l, Except.ok _) => { st with feedbackList := l }
    | (_, Except.error _) => st
  | FbEvent.setShowFeedbackModal b => { st with showFeedbackModal := b }
  | FbEvent.setFeedback d => { st with draft := d }

/-- Run submitFeedback from an initial state. -/
def runSubmitFeedback (st : FeedbackUiState) (today : Str) (postOk : Bool) :
    FeedbackUiState :=
  (submitFeedback st today postOk).foldl applyFbEvent st

/-- Whether an event is a call into the persistence layer. -/
def isPersistCall : FbEvent → Bool
  | FbEvent.addFeedbackCall _ _ => true
  | _ => false

/-- Whether a feedback event is a visible alert. -/
def isAlertEvent : FbEvent → Bool
  | FbEvent.alert _ => true
  | _ => false

/- ===================== Admin session and logout ===================== -/

/-- In-memory session fields owned by useAppState. -/
structure SessionMem where
  currentView : Str
  adminToken : Option Str
  isAdminAuthenticated : Bool
  deriving DecidableEq, Repr

/-- Durable client storage: the three localStorage keys used by useAppState
(currentView, isAdminAuthenticated, adminToken); none means the key is
absent. -/
structure Storage where
  currentView : Option Str
  isAdminAuthenticated : Option Str
  adminToken : Option Str
  deriving DecidableEq, Repr

/-- clearAppState from useAppState: remove all three keys. -/
def clearAppState (_s : Storage) : Storage :=
  { currentView := none, isAdminAuthenticated := none, adminToken := none }

/-- The write-through useEffect hooks of useAppState, run after the handler
commits, in hook order; each effect runs only when its field actually
changed.  The currentView effect stores the view, the adminToken effect
stores the token or removes the key when the token is null, and the
isAdminAuthenticated effect stores the literal true or false string. -/
def flushEffects (old new : SessionMem) (s : Storage) : Storage :=
  let s1 := if old.currentView ≠ new.currentView
    then { s with currentView := some new.currentView } else s
  let s2 := if old.adminToken ≠ new.adminToken
    then { s1 with adminToken := new.adminToken } else s1
  let flagStr := if new.isAdminAuthenticated then str "true" else str "false"
  if old.isAdminAuthenticated ≠ new.isAdminAuthenticated
    then { s2 with isAdminAuthenticated := some flagStr }
    else s2

/-- handleAdminLogout from useAdminAuth: null the token, clear the
authenticated flag, and resetToWelcome (view to welcome, flag false, token
null, durable entries cleared synchronously); the write-through effects then
run against the cleared storage. -/
def handleAdminLogout (m : SessionMem) (s : Storage) : SessionMem × Storage :=
  let m2 : SessionMem :=
    { currentView := str "welcome", adminToken := none, isAdminAuthenticated := false }
  (m2, flushEffects m m2 (clearAppState s))

/-- The startup rehydration logic of useAppState: the saved view or welcome
when absent or falsy; the stored token; authenticated when a token is present
or the stored flag is the literal true string. -/
def rehydrate (s : Storage) : SessionMem :=
  { currentView :=
      match s.currentView with
      | none => str "welcome"
      | some v => if v = [] then str "welcome" else v
    adminToken := s.adminToken
    isAdminAuthenticated :=
      s.adminToken.isSome || (s.isAdminAuthenticated = some (str "true")) }

/- ===================== Download actions (handleActionClick) ===================== -/

/-- Oracle for one handleActionClick run: whether the asset fetch returns ok,
and the pathname the browser URL parser yields for the download url (none
when the URL constructor throws). -/
structure ActOracle where
  downloadOk : Bool
  parsedPathname : Option Str
  deriving DecidableEq, Repr

/-- The slice of state handleActionClick reads. -/
structure ActState where
  result : Option GenerationResult
  deriving DecidableEq, Repr

/-- Primitive effects performed by handleActionClick, in order. -/
inductive ActEvent where
  | alert (msg : Str)
  | fetchBinary (url : Str) (ok : Bool)
  | saveFile (url : Str) (filename : Str)
  | setFeedbackType (t : Str)
  | setShowFeedbackModal (b : Bool)
  deriving DecidableEq, Repr

/-- handleActionClick from useFeedbackHandler as the ordered trace of its
effects.  The poster branch is entered only when the tag matches and the
current result carries a truthy poster reference; inside it the reference is
resolved (the unresolved alert is kept although the guard makes it dead),
the binary fetched, saved under a filename derived from the url with the
fixed poster default, and only then is the feedback modal opened; a fetch
failure alerts instead.  The video branch alerts when no video reference is
present and is otherwise symmetric with its own default filename and the
stored gif filename taking precedence.  Every other tag, including a
poster-download with no truthy poster reference, opens the feedback modal
directly. -/
def handleActionClick (apiBase : Str) (st : ActState) (ty : Str)
    (o : ActOracle) : List ActEvent :=
  if ty = str "download-poster" ∧
      optStrTruthy (st.result.bind (fun r => r.poster_url)) = true then
    match resolveBackendUrl apiBase (st.result.bind (fun r => r.poster_url)) with
    | none => [ActEvent.alert (str "Poster file is not available yet. Please try again shortly.")]
    | some u =>
      if o.downloadOk then
        [ActEvent.fetchBinary u true,
         ActEvent.saveFile u (deriveFilename u o.parsedPathname (str "generated-poster.png")),
         ActEvent.setFeedbackType (str "download-poster"),
         ActEvent.setShowFeedbackModal true]
      else
        [ActEvent.fetchBinary u false,
         ActEvent.alert (str "Download failed. Please check the console for details.")]
  else if ty = str "download-video" then
    if optStrTruthy (st.result.bind (fun r => r.videoUrl)) = false then
      [ActEvent.alert (str "Video file is not available yet. Please try again once the GIF is ready.")]
    else
      match resolveBackendUrl apiBase (st.result.bind (fun r => r.videoUrl)) with
      | none => [ActEvent.alert (str "Video file is not available yet. Please try again once the GIF is ready.")]
      | some u =>
        let fn := jsOrOpt (st.result.bind (fun r => r.videoFilename))
          (deriveFilename u o.parsedPathname (str "generated-video.gif"))
        if o.downloadOk then
          [ActEvent.fetchBinary u true,
           ActEvent.saveFile u fn,
           ActEvent.setFeedbackType (str "download-video"),
           ActEvent.setShowFeedbackModal true]
        else
          [ActEvent.fetchBinary u false,
           ActEvent.alert (str "Video download failed. Please check the console for details.")]
  else
    [ActEvent.setFeedbackType ty, ActEvent.setShowFeedbackModal true]

/-- Whether an action event is a visible alert. -/
def isActAlert : ActEvent → Bool
  | ActEvent.alert _ => true
  | _ => false

/-- Whether an action event opens the feedback modal. -/
def isOpenModal : ActEvent → Bool
  | ActEvent.setShowFeedbackModal true => true
  | _ => false

/-- The unresolved poster reference on the current result, if any. -/
def posterRefOf (st : ActState) : Option Str :=
  st.result.bind (fun r => r.poster_url)

/-- The resolved poster url with an empty default, used to phrase the
existence of the resolution without an existential binder. -/
def resolvedOrEmpty (apiBase : Str) (u : Str) : Str :=
  (resolveBackendUrl apiBase (some u)).getD []

/- ===================== Helper lemmas ===================== -/

theorem jsMaxId_add_one (ids : List Nat) : jsMaxId ids + 1 = specNextId ids := by
  cases ids with
  | nil => rfl
  | cons x xs => simp [jsMaxId, specNextId, List.foldl_cons, Nat.zero_max]

theorem startsWithCI_self_append (p t : Str) : startsWithCI p (p ++ t) = true := by
  induction p with
  | nil => simp [startsWithCI]
  | cons c cs ih => simp [startsWithCI, ih]

theorem isPrefixOf_self_append (l t : Str) : l.isPrefixOf (l ++ t) = true := by
  induction l with
  | nil => simp [List.isPrefixOf]
  | cons c cs ih => simp [List.isPrefixOf, ih]

theorem stripApiSuffix_http (r : Str) :
    stripApiSuffix (str "http://" ++ r) = str "http:/" ++ stripApiSuffix ('/' :: r) := rfl

theorem stripApiSuffix_https (r : Str) :
    stripApiSuffix (str "https://" ++ r) = str "https:/" ++ stripApiSuffix ('/' :: r) := rfl

theorem stripApiSuffix_slash (r : Str) :
    stripApiSuffix ('/' :: r) = [] ∨ ∃ s, stripApiSuffix ('/' :: r) = '/' :: s := by
  by_cases hc : isApiCut ('/' :: r) = true
  · left
    simp [stripApiSuffix, hc]
  · right
    exact ⟨stripApiSuffix r, by simp [stripApiSuffix, hc]⟩

theorem backendBaseUrl_absolute (apiBase : Str)
    (hbase : (∃ r, stripTrailingSlashes apiBase = str "http://" ++ r) ∨
             (∃ r, stripTrailingSlashes apiBase = str "https://" ++ r)) :
    ∀ q : Str, isAbsoluteUrl (backendBaseUrl apiBase ++ '/' :: q) = true := by
  intro q
  rcases hbase with ⟨r, hr⟩ | ⟨r, hr⟩
  · have hn : normalizedApiBase apiBase = str "http://" ++ r := by
      unfold normalizedApiBase
      rw [hr]
      simp [str]
    rcases stripApiSuffix_slash r with h0 | ⟨s, hs⟩
    · have hb : backendBaseUrl apiBase = str "http:/" := by
        unfold backendBaseUrl
        rw [hn, stripApiSuffix_http, h0]
        simp [str]
      rw [hb]
      rfl
    · have hb : backendBaseUrl apiBase = str "http://" ++ s := by
        unfold backendBaseUrl
        rw [hn, stripApiSuffix_http, hs]
        simp [str]
      rw [hb, List.append_assoc]
      simp [isAbsoluteUrl, startsWithCI_self_append]
  · have hn : normalizedApiBase apiBase = str "https://" ++ r := by
      unfold normalizedApiBase
      rw [hr]
      simp [str]
    rcases stripApiSuffix_slash r with h0 | ⟨s, hs⟩
    · have hb : backendBaseUrl apiBase = str "https:/" := by
        unfold backendBaseUrl
        rw [hn, stripApiSuffix_https, h0]
        simp [str]
      rw [hb]
      rfl
    · have hb : backendBaseUrl apiBase = str "https://" ++ s := by
        unfold backendBaseUrl
        rw [hn, stripApiSuffix_https, hs]
        simp [str]
      rw [hb, List.append_assoc]
      simp [isAbsoluteUrl, startsWithCI_self_append]

/- ===================== Claim theorems ===================== -/

/-- C1: for every run of handleGenerate, the history entry constructed and
persisted in that run has status Fallback when the backend generation call
throws (network failure or non-2xx response), and status Completed when the
call returns normally, even when every content field is empty. -/
theorem claim_C1_history_status (apiBase : Str) (form : FormData) (t : TimeInfo)
    (o : GenOracle) (s : AppReactState) :
    historyStatuses (handleGenerate apiBase form t o) = [specStatus o.fetch] ∧
    (runGenerate apiBase form t o s).history.map (fun g => g.status) =
      s.history.map (fun g => g.status) ++
        (if o.historyPostOk then [specStatus o.fetch] else []) := by
  obtain ⟨fetch, postOk⟩ := o
  cases fetch <;> cases postOk <;>
    simp [handleGenerate, historyStatuses, runGenerate, applyGenEvent,
      addGenerationHistoryRun, specStatus, mkHistoryEntry, List.filterMap]

/-- C2: for every invocation of handleGenerate with valid form input (at
least one output kind selected, non-empty ad text), the generating flag is
the first effect set to true and the last effect sets it back to false on
every execution path, and the result state is non-null afterwards. -/
theorem claim_C2_generating_flag (apiBase : Str) (form : FormData) (t : TimeInfo)
    (o : GenOracle) (s : AppReactState)
    (_houtputs : form.outputs ≠ []) (_htext : form.adText ≠ []) :
    (handleGenerate apiBase form t o).head? = some (GenEvent.setGenerating true) ∧
    (handleGenerate apiBase form t o).getLast? = some (GenEvent.setGenerating false) ∧
    (runGenerate apiBase form t o s).generating = false ∧
    (runGenerate apiBase form t o s).result.isSome = true := by
  obtain ⟨fetch, postOk⟩ := o
  cases fetch <;> cases postOk <;>
    simp [handleGenerate, runGenerate, applyGenEvent, addGenerationHistoryRun]

/-- Witness for C2 at a concrete valid form input. -/
theorem claim_C2_witness :
    (handleGenerate (str "http://localhost:8000/api")
        { adText := str "Try our app", tone := str "professional",
          platform := str "Instagram", outputs := [str "text"],
          brandGuidelines := [], logoPresent := false,
          logoPosition := str "bottom-right" }
        { nowMs := 1700000000000, dateStr := str "2026-10-11", timeStr := str "10:00 AM" }
        { fetch := FetchOutcome.networkError, historyPostOk := true }).head? =
      some (GenEvent.setGenerating true) ∧
    (handleGenerate (str "http://localhost:8000/api")
        { adText := str "Try our app", tone := str "professional",
          platform := str "Instagram", outputs := [str "text"],
          brandGuidelines := [], logoPresent := false,
          logoPosition := str "bottom-right" }
        { nowMs := 1700000000000, dateStr := str "2026-10-11", timeStr := str "10:00 AM" }
        { fetch := FetchOutcome.networkError, historyPostOk := true }).getLast? =
      some (GenEvent.setGenerating false) ∧
    (runGenerate (str "http://localhost:8000/api")
        { adText := str "Try our app", tone := str "professional",
          platform := str "Instagram", outputs := [str "text"],
          brandGuidelines := [], logoPresent := false,
          logoPosition := str "bottom-right" }
        { nowMs := 1700000000000, dateStr := str "2026-10-11", timeStr := str "10:00 AM" }
        { fetch := FetchOutcome.networkError, historyPostOk := true }
        { generating := false, result := none, history := [] }).generating = false ∧
    (runGenerate (str "http://localhost:8000/api")
        { adText := str "Try our app", tone := str "professional",
          platform := str "Instagram", outputs := [str "text"],
          brandGuidelines := [], logoPresent := false,
          logoPosition := str "bottom-right" }
        { nowMs := 1700000000000, dateStr := str "2026-10-11", timeStr := str "10:00 AM" }
        { fetch := FetchOutcome.networkError, historyPostOk := true }
        { generating := false, result := none, history := [] }).result.isSome = true :=
  claim_C2_generating_flag _ _ _ _ _ (by decide) (by decide)

/-- C3 counterexample: on a 2xx response with every generative field empty,
the three substituted placeholder strings are not distinct from the strings
assigned on a thrown call; at this concrete input the success-path result
text, poster prompt and video script all equal the corresponding fields of
the thrown-path result. -/
theorem claim_C3_counterexample :
    (resultsOf (handleGenerate (str "http://localhost:8000/api")
        { adText := str "Try our app", tone := str "professional",
          platform := str "Instagram", outputs := [str "text"],
          brandGuidelines := [], logoPresent := false,
          logoPosition := str "bottom-right" }
        { nowMs := 1700000000000, dateStr := str "2026-10-11", timeStr := str "10:00 AM" }
        { fetch := FetchOutcome.success
            { text := [], poster_prompt := [], poster_url := [],
              video_script := [], video_gif_url := [], video_gif_filename := [],
              quality_scores := none, validation_feedback := none, errors := [] },
          historyPostOk := true })).map (fun r => r.rewrittenText) =
      (resultsOf (handleGenerate (str "http://localhost:8000/api")
        { adText := str "Try our app", tone := str "professional",
          platform := str "Instagram", outputs := [str "text"],
          brandGuidelines := [], logoPresent := false,
          logoPosition := str "bottom-right" }
        { nowMs := 1700000000000, dateStr := str "2026-10-11", timeStr := str "10:00 AM" }
        { fetch := FetchOutcome.networkError,
          historyPostOk := true })).map (fun r => r.rewrittenText) ∧
    (resultsOf (handleGenerate (str "http://localhost:8000/api")
        { adText := str "Try our app", tone := str "professional",
          platform := str "Instagram", outputs := [str "text"],
          brandGuidelines := [], logoPresent := false,
          logoPosition := str "bottom-right" }
        { nowMs := 1700000000000, dateStr := str "2026-10-11", timeStr := str "10:00 AM" }
        { fetch := FetchOutcome.success
            { text := [], poster_prompt := [], poster_url := [],
              video_script := [], video_gif_url := [], video_gif_filename := [],
              quality_scores := none, validation_feedback := none, errors := [] },
          historyPostOk := true })).map (fun r => (r.posterUrl, r.videoScript)) =
      (resultsOf (handleGenerate (str "http://localhost:8000/api")
        { adText := str "Try our app", tone := str "professional",
          platform := str "Instagram", outputs := [str "text"],
          brandGuidelines := [], logoPresent := false,
          logoPosition := str "bottom-right" }
        { nowMs := 1700000000000, dateStr := str "2026-10-11", timeStr := str "10:00 AM" }
        { fetch := FetchOutcome.networkError,
          historyPostOk := true })).map (fun r => (r.posterUrl, r.videoScript)) := by
  constructor <;> rfl

/-- C3 amended: on a 2xx response with every generative field empty, the
result text, poster prompt and video script equal the three fixed
placeholder constants, which are the same constants assigned on a thrown
call (and are distinct from the per-field not-available defaults), and the
history entry has status Completed. -/
theorem claim_C3_empty_placeholders (apiBase : Str) (form : FormData)
    (t : TimeInfo) (postOk : Bool) (body : RagResponse)
    (h1 : body.text = []) (h2 : body.poster_prompt = []) (h3 : body.poster_url = [])
    (h4 : body.video_script = []) (h5 : body.video_gif_url = []) :
    resultsOf (handleGenerate apiBase form t
        { fetch := FetchOutcome.success body, historyPostOk := postOk }) =
      [successResult apiBase body] ∧
    (successResult apiBase body).rewrittenText = fallbackText ∧
    (successResult apiBase body).posterUrl = fallbackPosterPrompt ∧
    (successResult apiBase body).videoScript = fallbackVideoScript ∧
    (successResult apiBase body).rewrittenText = fallbackResult.rewrittenText ∧
    (successResult apiBase body).posterUrl = fallbackResult.posterUrl ∧
    (successResult apiBase body).videoScript = fallbackResult.videoScript ∧
    fallbackText ≠ str "Generated content not available" ∧
    fallbackPosterPrompt ≠ str "Poster prompt not generated" ∧
    fallbackVideoScript ≠ str "Video script not generated" ∧
    historyStatuses (handleGenerate apiBase form t
        { fetch := FetchOutcome.success body, historyPostOk := postOk }) =
      [str "Completed"] := by
  have he : hasEmptyResults body = true := by
    simp [hasEmptyResults, h1, h2, h3, h4, h5]
  refine ⟨?_, ?_, ?_, ?_, ?_, ?_, ?_, by decide, by decide, by decide, ?_⟩
  · simp [handleGenerate, resultsOf]
  · simp [successResult, jsOrStr, h1, he]
  · simp [successResult, jsOrStr, h2, he]
  · simp [successResult, jsOrStr, h4, he]
  · simp [successResult, fallbackResult, jsOrStr, h1, he]
  · simp [successResult, fallbackResult, jsOrStr, h2, he]
  · simp [successResult, fallbackResult, jsOrStr, h4, he]
  · simp [handleGenerate, historyStatuses, mkHistoryEntry]

/-- Witness for the amended C3 at a concrete all-empty 2xx body. -/
theorem claim_C3_witness :
    resultsOf (handleGenerate (str "http://localhost:8000/api")
        { adText := str "Try our app", tone := str "professional",
          platform := str "Instagram", outputs := [str "text"],
          brandGuidelines := [], logoPresent := false,
          logoPosition := str "bottom-right" }
        { nowMs := 1700000000000, dateStr := str "2026-10-11", timeStr := str "10:00 AM" }
        { fetch := FetchOutcome.success
            { text := [], poster_prompt := [], poster_url := [],
              video_script := [], video_gif_url := [], video_gif_filename := [],
              quality_scores := none, validation_feedback := none, errors := [] },
          historyPostOk := true }) =
      [successResult (str "http://localhost:8000/api")
        { text := [], poster_prompt := [], poster_url := [],
          video_script := [], video_gif_url := [], video_gif_filename := [],
          quality_scores := none, validation_feedback := none, errors := [] }] ∧
    (successResult (str "http://localhost:8000/api")
        { text := [], poster_prompt := [], poster_url := [],
          video_script := [], video_gif_url := [], video_gif_filename := [],
          quality_scores := none, validation_feedback := none, errors := [] }).rewrittenText =
      fallbackText :=
  ⟨(claim_C3_empty_placeholders (str "http://localhost:8000/api")
      { adText := str "Try our app", tone := str "professional",
        platform := str "Instagram", outputs := [str "text"],
        brandGuidelines := [], logoPresent := false,
        logoPosition := str "bottom-right" }
      { nowMs := 1700000000000, dateStr := str "2026-10-11", timeStr := str "10:00 AM" }
      true
      { text := [], poster_prompt := [], poster_url := [],
        video_script := [], video_gif_url := [], video_gif_filename := [],
        quality_scores := none, validation_feedback := none, errors := [] }
      rfl rfl rfl rfl rfl).1,
   (claim_C3_empty_placeholders (str "http://localhost:8000/api")
      { adText := str "Try our app", tone := str "professional",
        platform := str "Instagram", outputs := [str "text"],
        brandGuidelines := [], logoPresent := false,
        logoPosition := str "bottom-right" }
      { nowMs := 1700000000000, dateStr := str "2026-10-11", timeStr := str "10:00 AM" }
      true
      { text := [], poster_prompt := [], poster_url := [],
        video_script := [], video_gif_url := [], video_gif_filename := [],
        quality_scores := none, validation_feedback := none, errors := [] }
      rfl rfl rfl rfl rfl).2.1⟩

/-- C4: addGenerationHistory and addFeedback assign the locally computed
identifier equal to the maximum id in the current in-memory list plus one
(1 for an empty list), POST the record and append it only when the POST
succeeds; a failed POST propagates the error and leaves the list unchanged. -/
theorem claim_C4_add_atomicity (hist : List GenerationHistory)
    (g : GenerationHistory) (l : List FeedbackItem) (f : FeedbackItem) :
    addGenerationHistoryRun hist g true =
      (hist ++ [{ g with id := specNextId (hist.map (fun h => h.id)) }],
       Except.ok { g with id := specNextId (hist.map (fun h => h.id)) }) ∧
    addGenerationHistoryRun hist g false = (hist, Except.error ()) ∧
    addFeedbackRun l f true =
      (l ++ [{ f with id := specNextId (l.map (fun x => x.id)) }],
       Except.ok { f with id := specNextId (l.map (fun x => x.id)) }) ∧
    addFeedbackRun l f false = (l, Except.error ()) := by
  refine ⟨?_, rfl, ?_, rfl⟩
  · simp [addGenerationHistoryRun, jsMaxId_add_one]
  · simp [addFeedbackRun, jsMaxId_add_one]

/-- C5: submitting feedback with non-empty email and message closes the
modal and resets the draft when the persistence call succeeds; when it
fails, a visible error alert is surfaced and the modal and draft are left
untouched. -/
theorem claim_C5_submit_feedback (st : FeedbackUiState) (today : Str)
    (hemail : st.draft.email ≠ []) (hmsg : st.draft.message ≠ []) :
    (runSubmitFeedback st today true).showFeedbackModal = false ∧
    (runSubmitFeedback st today true).draft =
      { email := [], message := [], rating := 5 } ∧
    FbEvent.alert (str "Unable to record feedback. Please try again.") ∈
      submitFeedback st today false ∧
    (runSubmitFeedback st today false).showFeedbackModal = st.showFeedbackModal ∧
    (runSubmitFeedback st today false).draft = st.draft := by
  refine ⟨?_, ?_, ?_, ?_, ?_⟩ <;>
    simp [runSubmitFeedback, submitFeedback, applyFbEvent, addFeedbackRun,
      hemail, hmsg]

/-- Witness for C5 at a concrete populated draft. -/
theorem claim_C5_witness :
    (runSubmitFeedback
        { draft := { email := str "a@b.c", message := str "Nice", rating := 4 },
          feedbackType := some (str "copy"), showFeedbackModal := true,
          platform := str "Instagram", feedbackList := [] }
        (str "2026-10-11") true).showFeedbackModal = false ∧
    (runSubmitFeedback
        { draft := { email := str "a@b.c", message := str "Nice", rating := 4 },
          feedbackType := some (str "copy"), showFeedbackModal := true,
          platform := str "Instagram", feedbackList := [] }
        (str "2026-10-11") true).draft =
      { email := [], message := [], rating := 5 } ∧
    FbEvent.alert (str "Unable to record feedback. Please try again.") ∈
      submitFeedback
        { draft := { email := str "a@b.c", message := str "Nice", rating := 4 },
          feedbackType := some (str "copy"), showFeedbackModal := true,
          platform := str "Instagram", feedbackList := [] }
        (str "2026-10-11") false ∧
    (runSubmitFeedback
        { draft := { email := str "a@b.c", message := str "Nice", rating := 4 },
          feedbackType := some (str "copy"), showFeedbackModal := true,
          platform := str "Instagram", feedbackList := [] }
        (str "2026-10-11") false).showFeedbackModal = true ∧
    (runSubmitFeedback
        { draft := { email := str "a@b.c", message := str "Nice", rating := 4 },
          feedbackType := some (str "copy"), showFeedbackModal := true,
          platform := str "Instagram", feedbackList := [] }
        (str "2026-10-11") false).draft =
      { email := str "a@b.c", message := str "Nice", rating := 4 } :=
  claim_C5_submit_feedback
    { draft := { email := str "a@b.c", message := str "Nice", rating := 4 },
      feedbackType := some (str "copy"), showFeedbackModal := true,
      platform := str "Instagram", feedbackList := [] }
    (str "2026-10-11") (by decide) (by decide)

/-- C6: submitting feedback with an empty email or empty message produces
only the validation alert: the persistence layer is never called and the
modal is not closed. -/
theorem claim_C6_validation (st : FeedbackUiState) (today : Str) (postOk : Bool)
    (h : st.draft.email = [] ∨ st.draft.message = []) :
    submitFeedback st today postOk = [FbEvent.alert (str "Please fill in all fields")] ∧
    (submitFeedback st today postOk).all (fun e => !isPersistCall e) = true ∧
    (runSubmitFeedback st today postOk).showFeedbackModal = st.showFeedbackModal ∧
    (runSubmitFeedback st today postOk).draft = st.draft := by
  refine ⟨?_, ?_, ?_, ?_⟩ <;>
    simp [runSubmitFeedback, submitFeedback, applyFbEvent, isPersistCall, h]

/-- Witness for C6 at a concrete draft with an empty email. -/
theorem claim_C6_witness :
    submitFeedback
        { draft := { email := [], message := str "Nice", rating := 4 },
          feedbackType := none, showFeedbackModal := true,
          platform := str "Instagram", feedbackList := [] }
        (str "2026-10-11") true =
      [FbEvent.alert (str "Please fill in all fields")] ∧
    (submitFeedback
        { draft := { email := [], message := str "Nice", rating := 4 },
          feedbackType := none, showFeedbackModal := true,
          platform := str "Instagram", feedbackList := [] }
        (str "2026-10-11") true).all (fun e => !isPersistCall e) = true ∧
    (runSubmitFeedback
        { draft := { email := [], message := str "Nice", rating := 4 },
          feedbackType := none, showFeedbackModal := true,
          platform := str "Instagram", feedbackList := [] }
        (str "2026-10-11") true).showFeedbackModal = true ∧
    (runSubmitFeedback
        { draft := { email := [], message := str "Nice", rating := 4 },
          feedbackType := none, showFeedbackModal := true,
          platform := str "Instagram", feedbackList := [] }
        (str "2026-10-11") true).draft =
      { email := [], message := str "Nice", rating := 4 } :=
  claim_C6_validation
    { draft := { email := [], message := str "Nice", rating := 4 },
      feedbackType := none, showFeedbackModal := true,
      platform := str "Instagram", feedbackList := [] }
    (str "2026-10-11") true (Or.inl rfl)

/-- C7: handleAdminLogout clears the token and the authenticated flag in
memory, resets the view to welcome, and leaves durable storage holding no
admin session: the stored token key is absent and rehydration yields the
welcome view, no token, and an unauthenticated flag. -/
theorem claim_C7_logout (m : SessionMem) (s : Storage) :
    (handleAdminLogout m s).1.adminToken = none ∧
    (handleAdminLogout m s).1.isAdminAuthenticated = false ∧
    (handleAdminLogout m s).1.currentView = str "welcome" ∧
    (handleAdminLogout m s).2.adminToken = none ∧
    (rehydrate (handleAdminLogout m s).2).currentView = str "welcome" ∧
    (rehydrate (handleAdminLogout m s).2).adminToken = none ∧
    (rehydrate (handleAdminLogout m s).2).isAdminAuthenticated = false := by
  unfold handleAdminLogout flushEffects clearAppState rehydrate
  by_cases h1 : m.currentView ≠ str "welcome" <;>
    by_cases h2 : m.adminToken ≠ (none : Option Str) <;>
      by_cases h3 : m.isAdminAuthenticated ≠ false <;>
        simp [h1, h2, h3] <;> decide

/-- C8 counterexample: clicking download-poster while the current result
carries no poster reference (so the reference cannot be resolved) does not
show a visible failure and does not stop: the code falls through to the
generic branch, which opens the feedback modal directly with no alert. -/
theorem claim_C8_counterexample :
    resolveBackendUrl (str "http://localhost:8000/api")
      (posterRefOf { result := none }) = none ∧
    handleActionClick (str "http://localhost:8000/api") { result := none }
        (str "download-poster") { downloadOk := true, parsedPathname := none } =
      [ActEvent.setFeedbackType (str "download-poster"),
       ActEvent.setShowFeedbackModal true] ∧
    (handleActionClick (str "http://localhost:8000/api") { result := none }
        (str "download-poster") { downloadOk := true, parsedPathname := none }).all
      (fun e => !isActAlert e) = true := by
  refine ⟨rfl, ?_, ?_⟩ <;> decide

/-- C8 amended: for a download-poster action while the result carries a
non-empty poster reference, the reference always resolves to a url; the
binary is fetched, a filename is derived from the url path with the fixed
default generated-poster.png, the save is triggered, and only then is the
feedback modal opened tagged download-poster; on a failed fetch a visible
failure is shown and the modal is not opened. -/
theorem claim_C8_poster_download (apiBase : Str) (st : ActState) (o : ActOracle)
    (r : GenerationResult) (u : Str)
    (hres : st.result = some r) (hu : r.poster_url = some u) (hne : u ≠ []) :
    resolveBackendUrl apiBase (some u) = some (resolvedOrEmpty apiBase u) ∧
    handleActionClick apiBase st (str "download-poster") o =
      (if o.downloadOk then
        [ActEvent.fetchBinary (resolvedOrEmpty apiBase u) true,
         ActEvent.saveFile (resolvedOrEmpty apiBase u)
           (deriveFilename (resolvedOrEmpty apiBase u) o.parsedPathname
             (str "generated-poster.png")),
         ActEvent.setFeedbackType (str "download-poster"),
         ActEvent.setShowFeedbackModal true]
       else
        [ActEvent.fetchBinary (resolvedOrEmpty apiBase u) false,
         ActEvent.alert (str "Download failed. Please check the console for details.")]) ∧
    (o.downloadOk = false →
      (handleActionClick apiBase st (str "download-poster") o).all
        (fun e => !isOpenModal e) = true) := by
  have hru : ∃ ru, resolveBackendUrl apiBase (some u) = some ru := by
    simp only [resolveBackendUrl]
    rw [if_neg hne]
    by_cases hc : (isAbsoluteUrl u || (str "data:").isPrefixOf u) = true
    · rw [if_pos hc]
      exact ⟨u, rfl⟩
    · rw [if_neg hc]
      exact ⟨_, rfl⟩
  obtain ⟨ru, hr⟩ := hru
  have hre : resolvedOrEmpty apiBase u = ru := by
    simp [resolvedOrEmpty, hr]
  have hbind : st.result.bind (fun x => x.poster_url) = some u := by
    rw [hres]
    simpa using hu
  have htruthy : optStrTruthy (st.result.bind (fun x => x.poster_url)) = true := by
    rw [hbind]
    cases u with
    | nil => exact absurd rfl hne
    | cons c cs => simp [optStrTruthy]
  have htrace : handleActionClick apiBase st (str "download-poster") o =
      (if o.downloadOk then
        [ActEvent.fetchBinary ru true,
         ActEvent.saveFile ru
           (deriveFilename ru o.parsedPathname (str "generated-poster.png")),
         ActEvent.setFeedbackType (str "download-poster"),
         ActEvent.setShowFeedbackModal true]
       else
        [ActEvent.fetchBinary ru false,
         ActEvent.alert (str "Download failed. Please check the console for details.")]) := by
    unfold handleActionClick
    rw [if_pos ⟨rfl, htruthy⟩, hbind, hr]
  rw [hre, htrace]
  refine ⟨hr, rfl, ?_⟩
  intro hdl
  rw [hdl]
  simp [isOpenModal]

/-- Witness for the amended C8 at a concrete result carrying a poster
reference. -/
theorem claim_C8_witness :
    resolveBackendUrl (str "http://localhost:8000/api")
        (some (str "/static/posters/p1.png")) =
      some (resolvedOrEmpty (str "http://localhost:8000/api")
        (str "/static/posters/p1.png")) ∧
    handleActionClick (str "http://localhost:8000/api")
        { result := some
            { rewrittenText := str "T", posterUrl := str "P",
              poster_url := some (str "/static/posters/p1.png"),
              videoUrl := none, videoScript := str "V", videoFilename := none,
              qualityScores := none, validationFeedback := none } }
        (str "download-poster")
        { downloadOk := true, parsedPathname := some (str "/static/posters/p1.png") } =
      (if ({ downloadOk := true,
             parsedPathname := some (str "/static/posters/p1.png") } : ActOracle).downloadOk then
        [ActEvent.fetchBinary (resolvedOrEmpty (str "http://localhost:8000/api")
           (str "/static/posters/p1.png")) true,
         ActEvent.saveFile (resolvedOrEmpty (str "http://localhost:8000/api")
           (str "/static/posters/p1.png"))
           (deriveFilename (resolvedOrEmpty (str "http://localhost:8000/api")
             (str "/static/posters/p1.png"))
             (some (str "/static/posters/p1.png")) (str "generated-poster.png")),
         ActEvent.setFeedbackType (str "download-poster"),
         ActEvent.setShowFeedbackModal true]
       else
        [ActEvent.fetchBinary (resolvedOrEmpty (str "http://localhost:8000/api")
           (str "/static/posters/p1.png")) false,
         ActEvent.alert (str "Download failed. Please check the console for details.")]) ∧
    (({ downloadOk := true,
        parsedPathname := some (str "/static/posters/p1.png") } : ActOracle).downloadOk = false →
      (handleActionClick (str "http://localhost:8000/api")
          { result := some
              { rewrittenText := str "T", posterUrl := str "P",
                poster_url := some (str "/static/posters/p1.png"),
                videoUrl := none, videoScript := str "V", videoFilename := none,
                qualityScores := none, validationFeedback := none } }
          (str "download-poster")
          { downloadOk := true, parsedPathname := some (str "/static/posters/p1.png") }).all
        (fun e => !isOpenModal e) = true) :=
  claim_C8_poster_download (str "http://localhost:8000/api")
    { result := some
        { rewrittenText := str "T", posterUrl := str "P",
          poster_url := some (str "/static/posters/p1.png"),
          videoUrl := none, videoScript := str "V", videoFilename := none,
          qualityScores := none, validationFeedback := none } }
    { downloadOk := true, parsedPathname := some (str "/static/posters/p1.png") }
    { rewrittenText := str "T", posterUrl := str "P",
      poster_url := some (str "/static/posters/p1.png"),
      videoUrl := none, videoScript := str "V", videoFilename := none,
      qualityScores := none, validationFeedback := none }
    (str "/static/posters/p1.png") rfl rfl (by decide)

/-- C9: every relative asset path (non-empty, not scheme- or
protocol-relative, not a data url) resolves to the backend base joined with
the slash-normalized path, where the backend base is derived from the
configured API base by stripping the /api suffix and everything after it;
provided the configured base is an http or https url, the resolved value is
an absolute url (so it can never sit on the frontend origin). -/
theorem claim_C9_relative_resolution (apiBase p : Str)
    (hbase : (∃ r, stripTrailingSlashes apiBase = str "http://" ++ r) ∨
             (∃ r, stripTrailingSlashes apiBase = str "https://" ++ r))
    (hne : p ≠ []) (hrel : isAbsoluteUrl p = false)
    (hdata : (str "data:").isPrefixOf p = false) :
    resolveBackendUrl apiBase (some p) =
      some (backendBaseUrl apiBase ++ normalizeLeadingSlash p) ∧
    isAbsoluteUrl (backendBaseUrl apiBase ++ normalizeLeadingSlash p) = true := by
  constructor
  · simp only [resolveBackendUrl]
    rw [if_neg hne, if_neg (by simp [hrel, hdata])]
  · have hb := backendBaseUrl_absolute apiBase hbase
    by_cases hh : p.head? = some '/'
    · cases p with
      | nil => exact absurd rfl hne
      | cons c cs =>
        have hc : c = '/' := by simpa using hh
        subst hc
        have : normalizeLeadingSlash ('/' :: cs) = '/' :: cs := by
          simp [normalizeLeadingSlash]
        rw [this]
        exact hb cs
    · have : normalizeLeadingSlash p = '/' :: p := by
        simp [normalizeLeadingSlash, hh]
      rw [this]
      exact hb p

/-- Witness for C9 at the default configured base and a concrete relative
path. -/
theorem claim_C9_witness :
    resolveBackendUrl (str "http://localhost:8000/api") (some (str "static/p.png")) =
      some (backendBaseUrl (str "http://localhost:8000/api") ++
        normalizeLeadingSlash (str "static/p.png")) ∧
    isAbsoluteUrl (backendBaseUrl (str "http://localhost:8000/api") ++
      normalizeLeadingSlash (str "static/p.png")) = true :=
  claim_C9_relative_resolution (str "http://localhost:8000/api") (str "static/p.png")
    (Or.inl ⟨str "localhost:8000/api", by decide⟩)
    (by decide) (by decide) (by decide)

/-- C10 counterexample: the claimed idempotence fails under the claim's own
hypothesis that the configured API base begins with http: the degenerate
base consisting of the bare scheme and slashes loses its double slash to
trailing-slash stripping, so resolving the already-resolved path prefixes
the backend base a second time. -/
theorem claim_C10_counterexample :
    (str "http://").isPrefixOf (str "http://") = true ∧
    resolveBackendUrl (str "http://") (some (str "x")) = some (str "http:/x") ∧
    resolveBackendUrl (str "http://")
        (resolveBackendUrl (str "http://") (some (str "x"))) =
      some (str "http:/http:/x") ∧
    resolveBackendUrl (str "http://")
        (resolveBackendUrl (str "http://") (some (str "x"))) ≠
      resolveBackendUrl (str "http://") (some (str "x")) := by
  refine ⟨rfl, rfl, rfl, ?_⟩
  decide

/-- An already-absolute or data input passes through resolveBackendUrl
unchanged once it is non-empty and satisfies the absolute-or-data test. -/
theorem resolve_absolute_unchanged (apiBase q : Str) (hne : q ≠ [])
    (habs : (isAbsoluteUrl q || (str "data:").isPrefixOf q) = true) :
    resolveBackendUrl apiBase (some q) = some q := by
  simp only [resolveBackendUrl]
  rw [if_neg hne, if_pos habs]

/-- C10 amended: resolveBackendUrl returns undefined exactly on null,
undefined or empty input; inputs that are already absolute (http, https,
protocol-relative or data urls) are returned unchanged; and it is idempotent
provided the configured API base still begins with http or https slashes
after trailing-slash stripping (the bare scheme base defeats this, see the
counterexample). -/
theorem claim_C10_resolver_algebra (apiBase : Str) (p : Option Str) (q : Str)
    (hbase : (∃ r, stripTrailingSlashes apiBase = str "http://" ++ r) ∨
             (∃ r, stripTrailingSlashes apiBase = str "https://" ++ r)) :
    (resolveBackendUrl apiBase p = none ↔ (p = none ∨ p = some [])) ∧
    ((∃ t, q = str "http://" ++ t) ∨ (∃ t, q = str "https://" ++ t) ∨
     (∃ t, q = str "//" ++ t) ∨ (∃ t, q = str "data:" ++ t) →
      resolveBackendUrl apiBase (some q) = some q) ∧
    resolveBackendUrl apiBase (resolveBackendUrl apiBase p) =
      resolveBackendUrl apiBase p := by
  refine ⟨?_, ?_, ?_⟩
  · cases p with
    | none => simp [resolveBackendUrl]
    | some s =>
      by_cases hs : s = []
      · subst hs
        simp [resolveBackendUrl]
      · simp only [resolveBackendUrl]
        rw [if_neg hs]
        constructor
        · intro h
          by_cases hc : (isAbsoluteUrl s || (str "data:").isPrefixOf s) = true
          · rw [if_pos hc] at h
            exact absurd h (by simp)
          · rw [if_neg hc] at h
            exact absurd h (by simp)
        · rintro (h | h)
          · exact absurd h (by simp)
          · simp only [Option.some.injEq] at h
            exact absurd h hs
  · rintro (⟨t, ht⟩ | ⟨t, ht⟩ | ⟨t, ht⟩ | ⟨t, ht⟩) <;> subst ht
    · refine resolve_absolute_unchanged apiBase _ (by simp [str]) ?_
      simp [isAbsoluteUrl, startsWithCI_self_append]
    · refine resolve_absolute_unchanged apiBase _ (by simp [str]) ?_
      simp [isAbsoluteUrl, startsWithCI_self_append]
    · refine resolve_absolute_unchanged apiBase _ (by simp [str]) ?_
      simp [isAbsoluteUrl, isPrefixOf_self_append]
    · refine resolve_absolute_unchanged apiBase _ (by simp [str]) ?_
      simp [isPrefixOf_self_append]
  · cases p with
    | none => rfl
    | some s =>
      by_cases hs : s = []
      · subst hs
        simp [resolveBackendUrl]
      · by_cases hc : (isAbsoluteUrl s || (str "data:").isPrefixOf s) = true
        · have h1 := resolve_absolute_unchanged apiBase s hs hc
          rw [h1]
          exact h1
        · have hq : ∃ q2, normalizeLeadingSlash s = '/' :: q2 := by
            by_cases hh : s.head? = some '/'
            · cases s with
              | nil => exact absurd rfl hs
              | cons c cs =>
                have hc2 : c = '/' := by simpa using hh
                subst hc2
                exact ⟨cs, by simp [normalizeLeadingSlash]⟩
            · exact ⟨s, by simp [normalizeLeadingSlash, hh]⟩
          obtain ⟨q2, hq⟩ := hq
          have h1 : resolveBackendUrl apiBase (some s) =
              some (backendBaseUrl apiBase ++ normalizeLeadingSlash s) := by
            simp only [resolveBackendUrl]
            rw [if_neg hs, if_neg hc]
          have hne2 : backendBaseUrl apiBase ++ normalizeLeadingSlash s ≠ [] := by
            rw [hq]
            simp
          have habs2 : (isAbsoluteUrl (backendBaseUrl apiBase ++ normalizeLeadingSlash s) ||
              (str "data:").isPrefixOf (backendBaseUrl apiBase ++ normalizeLeadingSlash s)) = true := by
            rw [hq]
            simp [backendBaseUrl_absolute apiBase hbase q2]
          rw [h1]
          exact resolve_absolute_unchanged apiBase _ hne2 habs2

/-- Witness for the amended C10 at the default configured base. -/
theorem claim_C10_witness :
    (resolveBackendUrl (str "http://localhost:8000/api") (some (str "img/x.png")) = none ↔
      (some (str "img/x.png") = none ∨ some (str "img/x.png") = some [])) ∧
    resolveBackendUrl (str "http://localhost:8000/api")
        (some (str "http://cdn.example.com/a.png")) =
      some (str "http://cdn.example.com/a.png") ∧
    resolveBackendUrl (str "http://localhost:8000/api")
        (resolveBackendUrl (str "http://localhost:8000/api") (some (str "img/x.png"))) =
      resolveBackendUrl (str "http://localhost:8000/api") (some (str "img/x.png")) :=
  ⟨(claim_C10_resolver_algebra (str "http://localhost:8000/api")
      (some (str "img/x.png")) (str "http://cdn.example.com/a.png")
      (Or.inl ⟨str "localhost:8000/api", by decide⟩)).1,
   (claim_C10_resolver_algebra (str "http://localhost:8000/api")
      (some (str "img/x.png")) (str "http://cdn.example.com/a.png")
      (Or.inl ⟨str "localhost:8000/api", by decide⟩)).2.1
      (Or.inl ⟨str "cdn.example.com/a.png", rfl⟩),
   (claim_C10_resolver_algebra (str "http://localhost:8000/api")
      (some (str "img/x.png")) (str "http://cdn.example.com/a.png")
      (Or.inl ⟨str "localhost:8000/api", by decide⟩)).2.2⟩
